import Mathlib

/-!
Shallow embedding of the SyncToolAdminPanel backend (Node/Express + Postgres).

The embedding covers:
* the `/sync/data` handler of `src/routes/syncApi.js` (credential check, purge,
  row-by-row classification and insertion, in-transaction success log, error
  path with best-effort failure log),
* `dbService.transaction` of `src/services/dbService.js` (commit on normal
  return, full rollback when the callback throws),
* the `POST /add-users` handler and the `generateClientId` /
  `generateSecureToken` helpers of `src/routes/admin.js`.

Rows are JSON objects; we model them as association lists of string keys to
string values, with JS property access as exact key lookup and JS truthiness
of a string value as non-emptiness.  Database tables are lists in insertion
order; storage-level insert failures are modelled by an oracle saying which
insert statements raise.
-/

/-- A JSON row posted to `/sync/data`: key/value pairs (values as strings).
JS property access `row.K` is exact, case-sensitive key lookup. -/
abbrev Row := List (String × String)

/-- JS property access `row[k]`: the value at the first pair whose key is
exactly `k` (`none` = the JS `undefined`). -/
def lookupKey (row : Row) (k : String) : Option String :=
  (row.find? (fun p => p.1 == k)).map (fun p => p.2)

/-- Value of the JS expression `row.k1 || row.k2 || ... || null`: the first
present and truthy (non-empty) value among the listed keys, else `none`. -/
def firstTruthy (row : Row) : List String → Option String
  | [] => none
  | k :: ks =>
    match lookupKey row k with
    | some v => if v = "" then firstTruthy row ks else some v
    | none => firstTruthy row ks

/-- One `sync_users` record (the columns the embedded handlers read/write). -/
structure SyncUser where
  client_id : String
  db_name : String
  db_user : String
  db_password : String
  access_token : String
  client_name : String
  address : String
  phone_number : String
  username : String
  password : String
deriving DecidableEq, Repr

/-- One `acc_users` destination record (credential row). -/
structure UserRec where
  id : String
  pass : String
  client_id : String
deriving DecidableEq, Repr

/-- One `acc_master` destination record; nullable columns are `Option`. -/
structure MasterRec where
  code : Option String
  name : Option String
  address : Option String
  place : Option String
  super_code : Option String
  client_id : String
deriving DecidableEq, Repr

/-- One `sync_logs` audit record. -/
structure LogRec where
  client_id : String
  records_synced : Nat
  status : String
  message : String
deriving DecidableEq, Repr

/-- The database state: the four tables, as lists in insertion order. -/
structure DB where
  sync_users : List SyncUser
  acc_master : List MasterRec
  acc_users : List UserRec
  sync_logs : List LogRec
deriving DecidableEq, Repr

/-- Storage-failure oracle: which `INSERT` statements of one `/sync/data`
call raise a storage-level error (and with what message).
`rowFail i` governs the insert attempted for the i-th row of the batch,
`logFail` the `sync_logs` SUCCESS insert issued inside the transaction, and
`failLogFail` the best-effort `sync_logs` FAILED insert in the catch block. -/
structure Oracle where
  rowFail : Nat → Option String
  logFail : Option String
  failLogFail : Bool

/-- `row.ID || row.id` and `row.PASS || row.pass`, combined: `some (id, pass)`
iff both are truthy, i.e. iff the handler takes the user-row branch. -/
def userFieldsOf (row : Row) : Option (String × String) :=
  match firstTruthy row ["ID", "id"], firstTruthy row ["PASS", "pass"] with
  | some i, some p => some (i, p)
  | _, _ => none

/-- Field extraction of the master-row branch: each column is
`row.K1 || row.k2 || ... || null` with the alias lists of the source. -/
def masterRecOf (cid : String) (row : Row) : MasterRec :=
  { code := firstTruthy row ["CODE", "code"]
    name := firstTruthy row ["NAME", "name"]
    address := firstTruthy row ["ADDRESS", "address"]
    place := firstTruthy row ["PLACE", "place", "BRANCH", "branch"]
    super_code := firstTruthy row ["SUPERCODE", "super_code", "SUPER_CODE"]
    client_id := cid }

/-- The `for (const row of data)` loop of the handler: classify each row,
attempt its insert (the oracle decides whether the statement raises), rethrow
on failure, count successful inserts.  `i` is the index of the next row. -/
def runRows (rowFail : Nat → Option String) (cid : String) :
    List Row → Nat → DB → Nat → Except String (DB × Nat)
  | [], _, db, count => .ok (db, count)
  | row :: rest, i, db, count =>
    match rowFail i with
    | some msg => .error msg
    | none =>
      match userFieldsOf row with
      | some (uid, upass) =>
        runRows rowFail cid rest (i + 1)
          { db with acc_users := db.acc_users ++ [⟨uid, upass, cid⟩] } (count + 1)
      | none =>
        runRows rowFail cid rest (i + 1)
          { db with acc_master := db.acc_master ++ [masterRecOf cid row] } (count + 1)

/-- The transaction callback of `/sync/data` (steps 1-4 inside
`dbService.transaction`): credential check, purge of both destination tables,
row loop, and the in-transaction `sync_logs` SUCCESS insert.  An `.error`
result means the callback threw, so the transaction is rolled back. -/
def syncTxn (o : Oracle) (cid tok : String) (data : List Row) (db : DB) :
    Except String (DB × Nat) :=
  if (db.sync_users.filter
      (fun u => u.client_id == cid && u.access_token == tok)).length = 0 then
    .error "UNAUTHORIZED"
  else
    let db1 := { db with
      acc_master := db.acc_master.filter (fun r => r.client_id != cid) }
    let db2 := { db1 with
      acc_users := db1.acc_users.filter (fun r => r.client_id != cid) }
    match runRows o.rowFail cid data 0 db2 0 with
    | .error msg => .error msg
    | .ok (db3, count) =>
      match o.logFail with
      | some msg => .error msg
      | none =>
        .ok ({ db3 with sync_logs := db3.sync_logs ++
                 [⟨cid, count, "SUCCESS", "Sync completed successfully"⟩] }, count)

/-- HTTP response of `/sync/data`: the 200 success JSON
`{success, message, recordCount}` or an error JSON `{error}` with its status. -/
inductive SyncResponse where
  | ok (message : String) (recordCount : Nat)
  | err (status : Nat) (error : String)
deriving DecidableEq, Repr

/-- HTTP status of a response (200 for the success payload). -/
def SyncResponse.status : SyncResponse → Nat
  | .ok _ _ => 200
  | .err s _ => s

/-- The `success` flag of the response body. -/
def SyncResponse.success : SyncResponse → Bool
  | .ok _ _ => true
  | .err _ _ => false

/-- The `recordCount` field of the response body, when present. -/
def SyncResponse.recordCount : SyncResponse → Option Nat
  | .ok _ c => some c
  | .err _ _ => none

/-- Request body of `/sync/data`; `none` models an absent field, and
`data = none` models a body whose `data` is not an array. -/
structure SyncRequest where
  clientId : Option String
  accessToken : Option String
  data : Option (List Row)

/-- The full `/sync/data` handler: input validation, the transaction (with
rollback to the incoming state when its callback throws), and the catch block
with its best-effort FAILED `sync_logs` insert (issued outside the rolled-back
transaction) and its status-code choice.  Returns the database state after the
call together with the HTTP response. -/
def syncData (o : Oracle) (db : DB) (req : SyncRequest) : DB × SyncResponse :=
  match req.clientId, req.accessToken, req.data with
  | some cid, some tok, some data =>
    if cid = "" ∨ tok = "" then
      (db, .err 400 "Missing required fields")
    else
      match syncTxn o cid tok data db with
      | .ok (db2, count) =>
        (db2, .ok (s!"Successfully synced {count} records") count)
      | .error msg =>
        let db2 :=
          if o.failLogFail then db
          else { db with sync_logs := db.sync_logs ++ [⟨cid, 0, "FAILED", msg⟩] }
        if msg = "UNAUTHORIZED" then
          (db2, .err 401 "Invalid client ID or access token")
        else
          (db2, .err 500 "Server error")
  | _, _, _ => (db, .err 400 "Missing required fields")

/-- The credential rows the batch classifies (in input order): one per row on
which the handler takes the user branch, with the extracted id and pass. -/
def userRecs (cid : String) (rows : List Row) : List UserRec :=
  rows.filterMap (fun r => (userFieldsOf r).map (fun x => ⟨x.1, x.2, cid⟩))

/-- The master rows the batch classifies (in input order): one per row on
which the handler takes the master branch. -/
def masterRecs (cid : String) (rows : List Row) : List MasterRec :=
  (rows.filter (fun r => (userFieldsOf r).isNone)).map (masterRecOf cid)

/-- Decimal digits of a natural number, most significant first, as rendered by
`Number.prototype.toString` in the source (`[]` only for 0). -/
def decimalDigits (n : Nat) : List Nat :=
  if h : n = 0 then []
  else decimalDigits (n / 10) ++ [n % 10]
decreasing_by exact Nat.div_lt_self (Nat.pos_of_ne_zero h) (by omega)

/-- JS `n.toString()` for a non-negative integer. -/
def numToString (n : Nat) : String :=
  if n = 0 then "0" else String.mk ((decimalDigits n).map Nat.digitChar)

/-- `generateClientId` of `routes/admin.js`:
`Math.floor(1000000000 + Math.random() * 9000000000).toString()`.
The randomness is supplied as the already-floored draw
`k = Math.floor(Math.random() * 9000000000)`, so `k < 9000000000`. -/
def generateClientId (k : Nat) : String :=
  numToString (1000000000 + k)

/-- Hex rendering of one byte, as in Node's `buffer.toString("hex")`:
two lowercase hex digits, high nibble first. -/
def byteToHexChars (b : Nat) : List Char :=
  [Nat.digitChar (b / 16), Nat.digitChar (b % 16)]

/-- `generateSecureToken` of `routes/admin.js`:
`crypto.randomBytes(32).toString("hex")`.  The randomness is supplied as the
drawn byte list (length 32, each byte < 256). -/
def generateSecureToken (bytes : List Nat) : String :=
  String.mk (bytes.flatMap byteToHexChars)

/-- A character is a lowercase hexadecimal digit. -/
def isHexChar (c : Char) : Bool :=
  c.isDigit || ('a' ≤ c && c ≤ 'f')

/-- A string is a 10-digit numeric string. -/
def isTenDigitNumeric (s : String) : Bool :=
  s.length = 10 && s.data.all Char.isDigit

/-- Request body of `POST /add-users` (the destructured fields). -/
structure AddUserFields where
  dbName : String
  dbUser : String
  dbPassword : String
  clientName : String
  address : String
  phoneNumber : String
  username : String
  password : String

/-- Response of `POST /add-users`: the success JSON with the issued
credentials, or an error JSON with its HTTP status. -/
inductive AddUserResponse where
  | ok (clientId : String) (accessToken : String)
  | err (status : Nat) (error : String)
deriving DecidableEq, Repr

/-- The `POST /add-users` handler of `routes/admin.js`: required-field
validation, client-id generation, the transaction with the collision check
(throwing rolls it back), the insert, and the catch block mapping the
collision message to HTTP 409.  Randomness is supplied as `k` (the client-id
draw) and `bytes` (the token bytes). -/
def addUsers (db : DB) (f : AddUserFields) (k : Nat) (bytes : List Nat) :
    DB × AddUserResponse :=
  if f.dbName = "" ∨ f.dbUser = "" ∨ f.dbPassword = "" ∨ f.password = "" ∨
     f.address = "" ∨ f.clientName = "" ∨ f.phoneNumber = "" ∨ f.username = "" then
    (db, .err 400 "Database name, user, and password are required")
  else
    let clientId := generateClientId k
    if (db.sync_users.filter (fun u => u.client_id == clientId)).length > 0 then
      (db, .err 409 "Client ID collision - please try again")
    else
      let accessToken := generateSecureToken bytes
      ({ db with sync_users := db.sync_users ++
          [⟨clientId, f.dbName, f.dbUser, f.dbPassword, accessToken,
            f.clientName, f.address, f.phoneNumber, f.username, f.password⟩] },
       .ok clientId accessToken)

/-- A concrete registered client used by the concrete test runs. -/
def exClient : SyncUser :=
  ⟨"1234567890", "acmedb", "acme", "dbpw", "tok12345", "Acme", "Main St",
   "555-0100", "acmeadmin", "adminpw"⟩

/-- A concrete database holding only `exClient`, destination tables empty. -/
def exDB : DB := ⟨[exClient], [], [], []⟩

/-- The oracle on which every insert succeeds. -/
def okOracle : Oracle := ⟨fun _ => none, none, false⟩

/-- An oracle on which the insert of row index 1 raises `boom`. -/
def row1FailOracle : Oracle := ⟨fun i => if i = 1 then some "boom" else none, none, false⟩

/-- An oracle on which the in-transaction `sync_logs` SUCCESS insert raises. -/
def logFailOracle : Oracle := ⟨fun _ => none, some "logboom", false⟩

/-- A two-row batch: one credential row, one master row. -/
def exRows : List Row :=
  [[("ID", "u1"), ("PASS", "p1")], [("CODE", "C1"), ("NAME", "Acme")]]

/-- A one-row batch whose row has neither `ID`/`PASS` nor any `CODE` field. -/
def noCodeRows : List Row := [[("NAME", "OnlyName")]]

/-- A one-row batch using the capitalizations `Id` / `Pass`. -/
def capRows : List Row := [[("Id", "u1"), ("Pass", "p1")]]

/-- A well-formed request against `exDB`'s client with the given batch. -/
def exReq (data : List Row) : SyncRequest :=
  ⟨some "1234567890", some "tok12345", some data⟩

/-- A request whose token matches no stored client record. -/
def badTokReq : SyncRequest :=
  ⟨some "1234567890", some "wrongtok", some exRows⟩

/-- Concrete, fully populated `POST /add-users` fields. -/
def exFields : AddUserFields :=
  ⟨"newdb", "newuser", "newpw", "New Client", "Side St", "555-0101",
   "newadmin", "newadminpw"⟩

/-- Every credential row the classification produces is owned by `cid`. -/
theorem userRecs_client_id (cid : String) (rows : List Row) :
    ∀ r ∈ userRecs cid rows, r.client_id = cid := by
  intro r hr
  rcases List.mem_filterMap.1 hr with ⟨row, _, hf⟩
  rcases hx : userFieldsOf row with _ | pr
  · rw [hx] at hf; simp at hf
  · rw [hx] at hf
    simp only [Option.map] at hf
    cases hf
    rfl

/-- Every master row the classification produces is owned by `cid`. -/
theorem masterRecs_client_id (cid : String) (rows : List Row) :
    ∀ r ∈ masterRecs cid rows, r.client_id = cid := by
  intro r hr
  rcases List.mem_map.1 hr with ⟨row, _, hf⟩
  cases hf
  rfl

/-- When no insert of the batch raises, the row loop succeeds and appends
exactly the classified credential and master rows, in input order, counting
every row. -/
theorem runRows_ok_all_none (F : Nat → Option String) (cid : String)
    (rows : List Row) :
    ∀ (k : Nat) (db : DB) (c : Nat),
      (∀ i, i < rows.length → F (k + i) = none) →
      runRows F cid rows k db c =
        .ok ({ db with
                acc_master := db.acc_master ++ masterRecs cid rows,
                acc_users := db.acc_users ++ userRecs cid rows },
             c + rows.length) := by
  induction rows with
  | nil =>
    intro k db c _
    simp only [runRows]
    simp [masterRecs, userRecs]
  | cons row rest ih =>
    intro k db c h
    have h0 : F k = none := by simpa using h 0 (by simp)
    have hrest : ∀ i, i < rest.length → F (k + 1 + i) = none := by
      intro i hi
      have := h (i + 1) (by simp; omega)
      simpa [Nat.add_assoc, Nat.add_comm, Nat.add_left_comm] using this
    rcases hu : userFieldsOf row with _ | ⟨uid, upass⟩
    · simp only [runRows, h0, hu]
      rw [ih (k + 1) _ (c + 1) hrest]
      simp [userRecs, masterRecs, List.filterMap_cons, List.filter_cons, hu,
        List.append_assoc, Nat.add_comm, Nat.add_assoc, Nat.add_left_comm]
    · simp only [runRows, h0, hu]
      rw [ih (k + 1) _ (c + 1) hrest]
      simp [userRecs, masterRecs, List.filterMap_cons, List.filter_cons, hu,
        List.append_assoc, Nat.add_comm, Nat.add_assoc, Nat.add_left_comm]

/-- If the row loop succeeded, no insert of the batch raised. -/
theorem runRows_ok_oracle (F : Nat → Option String) (cid : String)
    (rows : List Row) :
    ∀ (k : Nat) (db : DB) (c : Nat) (x : DB × Nat),
      runRows F cid rows k db c = .ok x →
      ∀ i, i < rows.length → F (k + i) = none := by
  induction rows with
  | nil => intro k db c x _ i hi; simp at hi
  | cons row rest ih =>
    intro k db c x hok i hi
    rcases hF : F k with _ | msg
    · rcases hu : userFieldsOf row with _ | ⟨uid, upass⟩ <;>
        simp only [runRows, hF, hu] at hok
      · cases i with
        | zero => simpa using hF
        | succ j =>
          have := ih (k + 1) _ (c + 1) x hok j (by simpa using hi)
          simpa [Nat.add_assoc, Nat.add_comm, Nat.add_left_comm] using this
      · cases i with
        | zero => simpa using hF
        | succ j =>
          have := ih (k + 1) _ (c + 1) x hok j (by simpa using hi)
          simpa [Nat.add_assoc, Nat.add_comm, Nat.add_left_comm] using this
    · simp [runRows, hF] at hok

/-- If some insert of the batch raises, the row loop rethrows: it returns the
error of the first raising insert, whose message comes from the oracle. -/
theorem runRows_error_of_fail (F : Nat → Option String) (cid : String)
    (rows : List Row) :
    ∀ (k : Nat) (db : DB) (c : Nat) (j : Nat),
      j < rows.length → (F (k + j)).isSome →
      ∃ i msg, i < rows.length ∧ F (k + i) = some msg ∧
        runRows F cid rows k db c = .error msg := by
  induction rows with
  | nil => intro k db c j hj _; simp at hj
  | cons row rest ih =>
    intro k db c j hj hsome
    rcases hF : F k with _ | msg
    · cases j with
      | zero => rw [Nat.add_zero] at hsome; rw [hF] at hsome; simp at hsome
      | succ j' =>
        have hj' : j' < rest.length := by simpa using hj
        have hsome' : (F (k + 1 + j')).isSome := by
          have : k + (j' + 1) = k + 1 + j' := by omega
          rwa [this] at hsome
        rcases hu : userFieldsOf row with _ | ⟨uid, upass⟩
        · rcases ih (k + 1)
            { db with acc_master := db.acc_master ++ [masterRecOf cid row] }
            (c + 1) j' hj' hsome' with ⟨i, msg, hi, hFi, hrun⟩
          refine ⟨i + 1, msg, by simp; omega, ?_, ?_⟩
          · have : k + (i + 1) = k + 1 + i := by omega
            rwa [this]
          · simp only [runRows, hF, hu]
            exact hrun
        · rcases ih (k + 1)
            { db with acc_users := db.acc_users ++ [⟨uid, upass, cid⟩] }
            (c + 1) j' hj' hsome' with ⟨i, msg, hi, hFi, hrun⟩
          refine ⟨i + 1, msg, by simp; omega, ?_, ?_⟩
          · have : k + (i + 1) = k + 1 + i := by omega
            rwa [this]
          · simp only [runRows, hF, hu]
            exact hrun
    · exact ⟨0, msg, by simp, by simpa using hF, by simp [runRows, hF]⟩

/-- If the row loop succeeded, its result is exactly the classified rows
appended to the incoming tables, with every row counted. -/
theorem runRows_ok_inv (F : Nat → Option String) (cid : String)
    (rows : List Row) (k : Nat) (db : DB) (c : Nat) (x : DB × Nat)
    (h : runRows F cid rows k db c = .ok x) :
    x = ({ db with
            acc_master := db.acc_master ++ masterRecs cid rows,
            acc_users := db.acc_users ++ userRecs cid rows },
         c + rows.length) := by
  have hnone := runRows_ok_oracle F cid rows k db c x h
  rw [runRows_ok_all_none F cid rows k db c hnone] at h
  injection h with h
  exact h.symm

/-- Characterization of a fully successful `/sync/data` call: well-formed
request, matching credentials, no insert raising.  The destination tables are
purged of the client's rows and the classified batch is appended, one SUCCESS
audit record is appended inside the same transaction, and the 200 response
reports the full batch size. -/
theorem syncData_ok_spec (o : Oracle) (db : DB) (cid tok : String)
    (data : List Row)
    (hcid : cid ≠ "") (htok : tok ≠ "")
    (hauth : (db.sync_users.filter
      (fun u => u.client_id == cid && u.access_token == tok)).length ≠ 0)
    (hrows : ∀ i, i < data.length → o.rowFail i = none)
    (hlog : o.logFail = none) :
    syncData o db ⟨some cid, some tok, some data⟩ =
      ({ sync_users := db.sync_users,
         acc_master := db.acc_master.filter (fun r => r.client_id != cid) ++
           masterRecs cid data,
         acc_users := db.acc_users.filter (fun r => r.client_id != cid) ++
           userRecs cid data,
         sync_logs := db.sync_logs ++
           [⟨cid, data.length, "SUCCESS", "Sync completed successfully"⟩] },
       .ok (s!"Successfully synced {data.length} records") data.length) := by
  have hrows0 : ∀ i, i < data.length → o.rowFail (0 + i) = none := by
    intro i hi; simpa using hrows i hi
  simp only [syncData, syncTxn]
  rw [if_neg (by push_neg; exact ⟨hcid, htok⟩), if_neg hauth,
    runRows_ok_all_none o.rowFail cid data 0 _ 0 hrows0, hlog]
  simp

/-- Characterization of a `/sync/data` call whose transaction callback threw:
the transaction is rolled back (destination tables as before), the catch block
attempts the best-effort FAILED audit insert, and the status code is chosen
from the error message. -/
theorem syncData_error_spec (o : Oracle) (db : DB) (cid tok : String)
    (data : List Row) (msg : String)
    (hcid : cid ≠ "") (htok : tok ≠ "")
    (herr : syncTxn o cid tok data db = .error msg) :
    syncData o db ⟨some cid, some tok, some data⟩ =
      ((if o.failLogFail then db
        else { db with sync_logs := db.sync_logs ++ [⟨cid, 0, "FAILED", msg⟩] }),
       if msg = "UNAUTHORIZED" then .err 401 "Invalid client ID or access token"
       else .err 500 "Server error") := by
  simp only [syncData]
  rw [if_neg (by push_neg; exact ⟨hcid, htok⟩), herr]
  by_cases hb : o.failLogFail <;> by_cases hm : msg = "UNAUTHORIZED" <;>
    simp [hb, hm]

/-- A transaction whose credential check finds no match throws UNAUTHORIZED. -/
theorem syncTxn_unauthorized (o : Oracle) (db : DB) (cid tok : String)
    (data : List Row)
    (hauth : (db.sync_users.filter
      (fun u => u.client_id == cid && u.access_token == tok)).length = 0) :
    syncTxn o cid tok data db = .error "UNAUTHORIZED" := by
  simp only [syncTxn]
  rw [if_pos hauth]

/-- If some insert of the batch raises, the transaction callback of an
authenticated call throws with the message of the first raising insert. -/
theorem syncTxn_error_of_fail (o : Oracle) (db : DB) (cid tok : String)
    (data : List Row)
    (hauth : (db.sync_users.filter
      (fun u => u.client_id == cid && u.access_token == tok)).length ≠ 0)
    (j : Nat) (hj : j < data.length) (hsome : (o.rowFail j).isSome) :
    ∃ i msg, i < data.length ∧ o.rowFail i = some msg ∧
      syncTxn o cid tok data db = .error msg := by
  have hj0 : (o.rowFail (0 + j)).isSome := by simpa using hsome
  rcases runRows_error_of_fail o.rowFail cid data 0
      { db with
        acc_master := db.acc_master.filter (fun r => r.client_id != cid),
        acc_users := db.acc_users.filter (fun r => r.client_id != cid) }
      0 j hj hj0 with ⟨i, msg, hi, hFi, hrun⟩
  refine ⟨i, msg, hi, by simpa using hFi, ?_⟩
  simp only [syncTxn]
  rw [if_neg hauth]
  simp only [hrun]

/-- An authenticated transaction with no row failure but a failing SUCCESS
audit insert throws with the audit insert's error. -/
theorem syncTxn_error_of_logFail (o : Oracle) (db : DB) (cid tok : String)
    (data : List Row)
    (hauth : (db.sync_users.filter
      (fun u => u.client_id == cid && u.access_token == tok)).length ≠ 0)
    (hrows : ∀ i, i < data.length → o.rowFail i = none)
    (m : String) (hm : o.logFail = some m) :
    syncTxn o cid tok data db = .error m := by
  have hrows0 : ∀ i, i < data.length → o.rowFail (0 + i) = none := by
    intro i hi; simpa using hrows i hi
  simp only [syncTxn]
  rw [if_neg hauth, runRows_ok_all_none o.rowFail cid data 0 _ 0 hrows0, hm]

/-- Filtering twice with the same predicate filters once. -/
theorem filter_idem {α : Type} (p : α → Bool) (l : List α) :
    (l.filter p).filter p = l.filter p := by
  rw [List.filter_filter]
  simp

/-- A `/sync/data` call can only answer success when the request was
well-formed, the credentials matched, and no insert of the call raised. -/
theorem syncData_success_inv (o : Oracle) (db : DB) (cid tok : String)
    (data : List Row)
    (hsucc : ((syncData o db ⟨some cid, some tok, some data⟩).2).success = true) :
    cid ≠ "" ∧ tok ≠ "" ∧
    (db.sync_users.filter
      (fun u => u.client_id == cid && u.access_token == tok)).length ≠ 0 ∧
    (∀ i, i < data.length → o.rowFail i = none) ∧ o.logFail = none := by
  by_cases hcid : cid = ""
  · simp [syncData, hcid, SyncResponse.success] at hsucc
  by_cases htok : tok = ""
  · simp [syncData, htok, SyncResponse.success] at hsucc
  by_cases hauth : (db.sync_users.filter
      (fun u => u.client_id == cid && u.access_token == tok)).length = 0
  · rw [syncData_error_spec o db cid tok data "UNAUTHORIZED" hcid htok
      (syncTxn_unauthorized o db cid tok data hauth)] at hsucc
    simp [SyncResponse.success] at hsucc
  by_cases hrows : ∀ i, i < data.length → o.rowFail i = none
  · rcases hlog : o.logFail with _ | m
    · exact ⟨hcid, htok, hauth, hrows, rfl⟩
    · rw [syncData_error_spec o db cid tok data m hcid htok
        (syncTxn_error_of_logFail o db cid tok data hauth hrows m hlog)] at hsucc
      by_cases hm : m = "UNAUTHORIZED" <;>
        simp [hm, SyncResponse.success] at hsucc
  · push_neg at hrows
    rcases hrows with ⟨j, hj, hjfail⟩
    rcases syncTxn_error_of_fail o db cid tok data hauth j hj
      (Option.isSome_iff_ne_none.mpr hjfail) with ⟨i, msg, hi, hFi, herr⟩
    rw [syncData_error_spec o db cid tok data msg hcid htok herr] at hsucc
    by_cases hm : msg = "UNAUTHORIZED" <;>
      simp [hm, SyncResponse.success] at hsucc

/-- C2: for every `/sync/data` call that returns success, the two
destination tables afterwards hold, for the calling client, exactly the rows
classified from the input batch — every row with a truthy identifier and
credential once in `acc_users`, every other row once in `acc_master`, in
input order — and no previously synced row of that client survives, while
other clients' rows are untouched; `recordCount` counts the whole batch. -/
theorem sync_success_full_replace (o : Oracle) (db : DB) (cid tok : String)
    (data : List Row)
    (hsucc : ((syncData o db ⟨some cid, some tok, some data⟩).2).success = true) :
    (syncData o db ⟨some cid, some tok, some data⟩).1.acc_users =
      db.acc_users.filter (fun r => r.client_id != cid) ++ userRecs cid data ∧
    (syncData o db ⟨some cid, some tok, some data⟩).1.acc_master =
      db.acc_master.filter (fun r => r.client_id != cid) ++ masterRecs cid data ∧
    (syncData o db ⟨some cid, some tok, some data⟩).2.recordCount =
      some data.length := by
  obtain ⟨hcid, htok, hauth, hrows, hlog⟩ :=
    syncData_success_inv o db cid tok data hsucc
  rw [syncData_ok_spec o db cid tok data hcid htok hauth hrows hlog]
  exact ⟨rfl, rfl, rfl⟩

/-- C4: a `/sync/data` call whose client/token pair matches no stored record
answers 401 Unauthorized and leaves both destination tables (of every
client) exactly as they were: the transaction aborts before any delete or
insert takes lasting effect. -/
theorem sync_unauthorized_no_mutation (o : Oracle) (db : DB) (cid tok : String)
    (data : List Row) (hcid : cid ≠ "") (htok : tok ≠ "")
    (hauth : (db.sync_users.filter
      (fun u => u.client_id == cid && u.access_token == tok)).length = 0) :
    (syncData o db ⟨some cid, some tok, some data⟩).2 =
      .err 401 "Invalid client ID or access token" ∧
    (syncData o db ⟨some cid, some tok, some data⟩).1.acc_master =
      db.acc_master ∧
    (syncData o db ⟨some cid, some tok, some data⟩).1.acc_users =
      db.acc_users := by
  rw [syncData_error_spec o db cid tok data "UNAUTHORIZED" hcid htok
    (syncTxn_unauthorized o db cid tok data hauth)]
  refine ⟨by simp, ?_, ?_⟩ <;> by_cases hb : o.failLogFail <;> simp [hb]

/-- C10: a `/sync/data` call that fails authentication still attempts, after
the rollback and outside the transaction, a best-effort `sync_logs` insert
carrying the caller-supplied clientId, a 0 record count, status FAILED and
the error message; whether or not that insert itself fails, the response is
the same 401. -/
theorem sync_auth_failure_best_effort_log (o : Oracle) (db : DB)
    (cid tok : String) (data : List Row) (hcid : cid ≠ "") (htok : tok ≠ "")
    (hauth : (db.sync_users.filter
      (fun u => u.client_id == cid && u.access_token == tok)).length = 0) :
    (syncData o db ⟨some cid, some tok, some data⟩).2.status = 401 ∧
    (syncData o db ⟨some cid, some tok, some data⟩).1.sync_logs =
      (if o.failLogFail then db.sync_logs
       else db.sync_logs ++ [⟨cid, 0, "FAILED", "UNAUTHORIZED"⟩]) := by
  rw [syncData_error_spec o db cid tok data "UNAUTHORIZED" hcid htok
    (syncTxn_unauthorized o db cid tok data hauth)]
  constructor
  · simp [SyncResponse.status]
  · by_cases hb : o.failLogFail <;> simp [hb]

/-- C9: if any row's insert raises during an authenticated `/sync/data`
call, the whole transaction — the purge and every earlier insert — is rolled
back: both destination tables end exactly as before the call and the caller
gets a non-success response.  The sync is all-or-nothing. -/
theorem sync_all_or_nothing (o : Oracle) (db : DB) (cid tok : String)
    (data : List Row) (hcid : cid ≠ "") (htok : tok ≠ "")
    (hauth : (db.sync_users.filter
      (fun u => u.client_id == cid && u.access_token == tok)).length ≠ 0)
    (j : Nat) (hj : j < data.length) (hsome : (o.rowFail j).isSome) :
    (syncData o db ⟨some cid, some tok, some data⟩).1.acc_master =
      db.acc_master ∧
    (syncData o db ⟨some cid, some tok, some data⟩).1.acc_users =
      db.acc_users ∧
    ((syncData o db ⟨some cid, some tok, some data⟩).2).success = false := by
  rcases syncTxn_error_of_fail o db cid tok data hauth j hj hsome with
    ⟨i, msg, hi, hFi, herr⟩
  rw [syncData_error_spec o db cid tok data msg hcid htok herr]
  refine ⟨?_, ?_, ?_⟩
  · by_cases hb : o.failLogFail <;> simp [hb]
  · by_cases hb : o.failLogFail <;> simp [hb]
  · by_cases hm : msg = "UNAUTHORIZED" <;> simp [hm, SyncResponse.success]

/-- Purging the classified credential rows removes them all. -/
theorem userRecs_filter_ne (cid : String) (data : List Row) :
    (userRecs cid data).filter (fun r => r.client_id != cid) = [] := by
  rw [List.filter_eq_nil_iff]
  intro r hr
  simp [userRecs_client_id cid data r hr]

/-- Purging the classified master rows removes them all. -/
theorem masterRecs_filter_ne (cid : String) (data : List Row) :
    (masterRecs cid data).filter (fun r => r.client_id != cid) = [] := by
  rw [List.filter_eq_nil_iff]
  intro r hr
  simp [masterRecs_client_id cid data r hr]

/-- C7: running a successful sync twice with the same batch leaves the
destination tables as after the first run — the second run deletes exactly
what the first inserted and re-inserts the same classified rows, so the
replace is not additive. -/
theorem sync_idempotent (o : Oracle) (db : DB) (cid tok : String)
    (data : List Row)
    (hsucc : ((syncData o db ⟨some cid, some tok, some data⟩).2).success = true) :
    (syncData o (syncData o db ⟨some cid, some tok, some data⟩).1
        ⟨some cid, some tok, some data⟩).1.acc_users =
      (syncData o db ⟨some cid, some tok, some data⟩).1.acc_users ∧
    (syncData o (syncData o db ⟨some cid, some tok, some data⟩).1
        ⟨some cid, some tok, some data⟩).1.acc_master =
      (syncData o db ⟨some cid, some tok, some data⟩).1.acc_master := by
  obtain ⟨hcid, htok, hauth, hrows, hlog⟩ :=
    syncData_success_inv o db cid tok data hsucc
  rw [syncData_ok_spec o db cid tok data hcid htok hauth hrows hlog]
  rw [syncData_ok_spec o _ cid tok data hcid htok (by simpa using hauth)
    hrows hlog]
  constructor
  · show (db.acc_users.filter (fun r => r.client_id != cid) ++
        userRecs cid data).filter (fun r => r.client_id != cid) ++
        userRecs cid data = _
    rw [List.filter_append, filter_idem, userRecs_filter_ne,
      List.append_nil]
  · show (db.acc_master.filter (fun r => r.client_id != cid) ++
        masterRecs cid data).filter (fun r => r.client_id != cid) ++
        masterRecs cid data = _
    rw [List.filter_append, filter_idem, masterRecs_filter_ne,
      List.append_nil]

/-- C1 (amended): when a row's insert raises a storage error during an
authenticated `/sync/data` call, the engine does not accumulate per-row
errors: it rethrows, the whole transaction is rolled back (no row of the
batch persists), no PARTIAL outcome or record count is reported, and the
caller gets a 500 Server error. -/
theorem sync_row_failure_aborts (o : Oracle) (db : DB) (cid tok : String)
    (data : List Row) (hcid : cid ≠ "") (htok : tok ≠ "")
    (hauth : (db.sync_users.filter
      (fun u => u.client_id == cid && u.access_token == tok)).length ≠ 0)
    (j : Nat) (hj : j < data.length) (hsome : (o.rowFail j).isSome)
    (hmsg : ∀ i m, o.rowFail i = some m → m ≠ "UNAUTHORIZED") :
    (syncData o db ⟨some cid, some tok, some data⟩).2 =
      .err 500 "Server error" ∧
    (syncData o db ⟨some cid, some tok, some data⟩).2.recordCount = none ∧
    (syncData o db ⟨some cid, some tok, some data⟩).1.acc_master =
      db.acc_master ∧
    (syncData o db ⟨some cid, some tok, some data⟩).1.acc_users =
      db.acc_users := by
  rcases syncTxn_error_of_fail o db cid tok data hauth j hj hsome with
    ⟨i, msg, hi, hFi, herr⟩
  have hm : msg ≠ "UNAUTHORIZED" := hmsg i msg hFi
  rw [syncData_error_spec o db cid tok data msg hcid htok herr]
  refine ⟨by simp [hm], by simp [hm, SyncResponse.recordCount], ?_, ?_⟩ <;>
    by_cases hb : o.failLogFail <;> simp [hb]

/-- C3 (amended): a batch row lacking a truthy identifier+credential pair is
always inserted into `acc_master`, even when its code field is absent or
empty: the row lands in the master table with a null code, it does count
toward `recordCount`, and nothing is skipped. -/
theorem sync_no_code_row_still_inserted (o : Oracle) (db : DB)
    (cid tok : String) (data : List Row) (hcid : cid ≠ "") (htok : tok ≠ "")
    (hauth : (db.sync_users.filter
      (fun u => u.client_id == cid && u.access_token == tok)).length ≠ 0)
    (hrows : ∀ i, i < data.length → o.rowFail i = none)
    (hlog : o.logFail = none)
    (row : Row) (hrow : row ∈ data)
    (huser : userFieldsOf row = none)
    (hcode : firstTruthy row ["CODE", "code"] = none) :
    masterRecOf cid row ∈
      (syncData o db ⟨some cid, some tok, some data⟩).1.acc_master ∧
    (masterRecOf cid row).code = none ∧
    (syncData o db ⟨some cid, some tok, some data⟩).2.recordCount =
      some data.length := by
  rw [syncData_ok_spec o db cid tok data hcid htok hauth hrows hlog]
  refine ⟨?_, ?_, rfl⟩
  · apply List.mem_append_right
    apply List.mem_map.mpr
    exact ⟨row, List.mem_filter.mpr ⟨hrow, by simp [huser]⟩, rfl⟩
  · simp [masterRecOf, hcode]

/-- C5 (amended): the SUCCESS audit record is written inside the main
transaction, before it commits: a fully successful call appends exactly one
SUCCESS `sync_logs` entry with the client id and the record count, and if
that audit insert itself raises, the whole sync is rolled back and the
response becomes a 500 error — only the FAILED log of the error path is a
separate best-effort write. -/
theorem sync_success_log_inside_transaction (o : Oracle) (db : DB)
    (cid tok : String) (data : List Row) (hcid : cid ≠ "") (htok : tok ≠ "")
    (hauth : (db.sync_users.filter
      (fun u => u.client_id == cid && u.access_token == tok)).length ≠ 0)
    (hrows : ∀ i, i < data.length → o.rowFail i = none) :
    (o.logFail = none →
      (syncData o db ⟨some cid, some tok, some data⟩).1.sync_logs =
        db.sync_logs ++
          [⟨cid, data.length, "SUCCESS", "Sync completed successfully"⟩] ∧
      ((syncData o db ⟨some cid, some tok, some data⟩).2).success = true) ∧
    (∀ m, o.logFail = some m → m ≠ "UNAUTHORIZED" →
      (syncData o db ⟨some cid, some tok, some data⟩).2 =
        .err 500 "Server error" ∧
      (syncData o db ⟨some cid, some tok, some data⟩).1.acc_users =
        db.acc_users ∧
      (syncData o db ⟨some cid, some tok, some data⟩).1.acc_master =
        db.acc_master) := by
  constructor
  · intro hlog
    rw [syncData_ok_spec o db cid tok data hcid htok hauth hrows hlog]
    exact ⟨rfl, rfl⟩
  · intro m hm hmu
    rw [syncData_error_spec o db cid tok data m hcid htok
      (syncTxn_error_of_logFail o db cid tok data hauth hrows m hm)]
    refine ⟨by simp [hmu], ?_, ?_⟩ <;>
      by_cases hb : o.failLogFail <;> simp [hb]

/-- C6 (amended): field names of a sync row are matched by exact,
case-sensitive key lookup against only the listed spellings (`ID|id`,
`PASS|pass`, `CODE|code`, `NAME|name`, `ADDRESS|address`,
`PLACE|place|BRANCH|branch`, `SUPERCODE|super_code|SUPER_CODE`); any other
capitalization, such as `Id`, `Pass` or `Code`, selects nothing. -/
theorem field_alias_exact_match (u p c v : String) (hu : u ≠ "")
    (hp : p ≠ "") (hv : v ≠ "") :
    userFieldsOf [("ID", u), ("PASS", p)] = some (u, p) ∧
    userFieldsOf [("id", u), ("pass", p)] = some (u, p) ∧
    userFieldsOf [("Id", u), ("Pass", p)] = none ∧
    (masterRecOf c [("CODE", v)]).code = some v ∧
    (masterRecOf c [("code", v)]).code = some v ∧
    (masterRecOf c [("Code", v)]).code = none ∧
    (masterRecOf c [("BRANCH", v)]).place = some v ∧
    (masterRecOf c [("SUPER_CODE", v)]).super_code = some v := by
  refine ⟨?_, ?_, ?_, ?_, ?_, ?_, ?_, ?_⟩ <;>
    simp [userFieldsOf, masterRecOf, firstTruthy, lookupKey, List.find?,
      hu, hp, hv]

/-- Witness for `field_alias_exact_match` at concrete field values. -/
theorem field_alias_exact_match_witness :
    userFieldsOf [("ID", "u1"), ("PASS", "p1")] = some ("u1", "p1") ∧
    userFieldsOf [("id", "u1"), ("pass", "p1")] = some ("u1", "p1") ∧
    userFieldsOf [("Id", "u1"), ("Pass", "p1")] = none ∧
    (masterRecOf "c1" [("CODE", "v1")]).code = some "v1" ∧
    (masterRecOf "c1" [("code", "v1")]).code = some "v1" ∧
    (masterRecOf "c1" [("Code", "v1")]).code = none ∧
    (masterRecOf "c1" [("BRANCH", "v1")]).place = some "v1" ∧
    (masterRecOf "c1" [("SUPER_CODE", "v1")]).super_code = some "v1" :=
  field_alias_exact_match "u1" "p1" "c1" "v1" (by decide) (by decide)
    (by decide)

/-- Counterexample to C6 as stated: a row spelled `{Id, Pass}` is *not*
treated as a credential row — the call classifies it as a master row with
every column null, and `acc_users` stays empty. -/
theorem sync_case_insensitive_cex :
    (syncData okOracle exDB (exReq capRows)).1.acc_users = [] ∧
    (syncData okOracle exDB (exReq capRows)).1.acc_master =
      [⟨none, none, none, none, none, "1234567890"⟩] ∧
    (syncData okOracle exDB (exReq capRows)).2.recordCount = some 1 :=
  ⟨rfl, rfl, rfl⟩

/-- Counterexample to C1 as stated: with one of two rows failing at the
storage layer, the call does not answer PARTIAL with `recordCount` 1 — it
answers 500 with no record count, both inserts are rolled back, and the log
records FAILED with 0. -/
theorem sync_partial_failure_cex :
    (syncData row1FailOracle exDB (exReq exRows)).2 =
      .err 500 "Server error" ∧
    (syncData row1FailOracle exDB (exReq exRows)).2.recordCount = none ∧
    (syncData row1FailOracle exDB (exReq exRows)).1.acc_users = [] ∧
    (syncData row1FailOracle exDB (exReq exRows)).1.acc_master = [] ∧
    (syncData row1FailOracle exDB (exReq exRows)).1.sync_logs =
      [⟨"1234567890", 0, "FAILED", "boom"⟩] :=
  ⟨rfl, rfl, rfl, rfl, rfl⟩

/-- Counterexample to C3 as stated: a row with neither identifier+credential
nor any code field is *not* skipped — it is inserted into `acc_master` with a
null code and counted in `recordCount`. -/
theorem sync_skip_no_code_cex :
    (syncData okOracle exDB (exReq noCodeRows)).2.recordCount = some 1 ∧
    (syncData okOracle exDB (exReq noCodeRows)).1.acc_master =
      [⟨none, some "OnlyName", none, none, none, "1234567890"⟩] :=
  ⟨rfl, rfl⟩

/-- Counterexample to C5 as stated: when the audit insert fails on an
otherwise fully successful sync, the response is *not* the already determined
success — the audit write sits inside the transaction, so the whole sync
rolls back and the call answers 500 with nothing inserted. -/
theorem sync_audit_after_commit_cex :
    (syncData logFailOracle exDB (exReq exRows)).2 =
      .err 500 "Server error" ∧
    (syncData logFailOracle exDB (exReq exRows)).1.acc_users = [] ∧
    (syncData logFailOracle exDB (exReq exRows)).1.acc_master = [] ∧
    (syncData logFailOracle exDB (exReq exRows)).1.sync_logs =
      [⟨"1234567890", 0, "FAILED", "logboom"⟩] :=
  ⟨rfl, rfl, rfl, rfl⟩

/-- Witness for `sync_success_full_replace` on a concrete successful run. -/
theorem sync_success_full_replace_witness :
    ((syncData okOracle exDB ⟨some "1234567890", some "tok12345",
        some exRows⟩).2).success = true ∧
    ((syncData okOracle exDB ⟨some "1234567890", some "tok12345",
        some exRows⟩).1.acc_users =
      exDB.acc_users.filter (fun r => r.client_id != "1234567890") ++
        userRecs "1234567890" exRows ∧
    (syncData okOracle exDB ⟨some "1234567890", some "tok12345",
        some exRows⟩).1.acc_master =
      exDB.acc_master.filter (fun r => r.client_id != "1234567890") ++
        masterRecs "1234567890" exRows ∧
    (syncData okOracle exDB ⟨some "1234567890", some "tok12345",
        some exRows⟩).2.recordCount = some exRows.length) :=
  ⟨rfl, sync_success_full_replace okOracle exDB "1234567890" "tok12345"
    exRows rfl⟩

/-- Witness for `sync_unauthorized_no_mutation` on a concrete bad token. -/
theorem sync_unauthorized_no_mutation_witness :
    (exDB.sync_users.filter (fun u => u.client_id == "1234567890" &&
      u.access_token == "wrongtok")).length = 0 ∧
    ((syncData okOracle exDB ⟨some "1234567890", some "wrongtok",
        some exRows⟩).2 = .err 401 "Invalid client ID or access token" ∧
    (syncData okOracle exDB ⟨some "1234567890", some "wrongtok",
        some exRows⟩).1.acc_master = exDB.acc_master ∧
    (syncData okOracle exDB ⟨some "1234567890", some "wrongtok",
        some exRows⟩).1.acc_users = exDB.acc_users) :=
  ⟨rfl, sync_unauthorized_no_mutation okOracle exDB "1234567890" "wrongtok"
    exRows (by decide) (by decide) rfl⟩

/-- Witness for `sync_auth_failure_best_effort_log` on a concrete bad
token. -/
theorem sync_auth_failure_best_effort_log_witness :
    (exDB.sync_users.filter (fun u => u.client_id == "1234567890" &&
      u.access_token == "wrongtok")).length = 0 ∧
    ((syncData okOracle exDB ⟨some "1234567890", some "wrongtok",
        some exRows⟩).2.status = 401 ∧
    (syncData okOracle exDB ⟨some "1234567890", some "wrongtok",
        some exRows⟩).1.sync_logs =
      (if okOracle.failLogFail then exDB.sync_logs
       else exDB.sync_logs ++
         [⟨"1234567890", 0, "FAILED", "UNAUTHORIZED"⟩])) :=
  ⟨rfl, sync_auth_failure_best_effort_log okOracle exDB "1234567890"
    "wrongtok" exRows (by decide) (by decide) rfl⟩

/-- Witness for `sync_all_or_nothing` on a concrete failing batch. -/
theorem sync_all_or_nothing_witness :
    (1 < exRows.length ∧ (row1FailOracle.rowFail 1).isSome) ∧
    ((syncData row1FailOracle exDB ⟨some "1234567890", some "tok12345",
        some exRows⟩).1.acc_master = exDB.acc_master ∧
    (syncData row1FailOracle exDB ⟨some "1234567890", some "tok12345",
        some exRows⟩).1.acc_users = exDB.acc_users ∧
    ((syncData row1FailOracle exDB ⟨some "1234567890", some "tok12345",
        some exRows⟩).2).success = false) :=
  ⟨⟨by decide, rfl⟩, sync_all_or_nothing row1FailOracle exDB "1234567890"
    "tok12345" exRows (by decide) (by decide) (by decide) 1 (by decide) rfl⟩

/-- Witness for `sync_idempotent` on a concrete successful run. -/
theorem sync_idempotent_witness :
    ((syncData okOracle exDB ⟨some "1234567890", some "tok12345",
        some exRows⟩).2).success = true ∧
    ((syncData okOracle (syncData okOracle exDB ⟨some "1234567890",
        some "tok12345", some exRows⟩).1 ⟨some "1234567890",
        some "tok12345", some exRows⟩).1.acc_users =
      (syncData okOracle exDB ⟨some "1234567890", some "tok12345",
        some exRows⟩).1.acc_users ∧
    (syncData okOracle (syncData okOracle exDB ⟨some "1234567890",
        some "tok12345", some exRows⟩).1 ⟨some "1234567890",
        some "tok12345", some exRows⟩).1.acc_master =
      (syncData okOracle exDB ⟨some "1234567890", some "tok12345",
        some exRows⟩).1.acc_master) :=
  ⟨rfl, sync_idempotent okOracle exDB "1234567890" "tok12345" exRows rfl⟩

/-- Witness for `sync_row_failure_aborts` on a concrete failing batch. -/
theorem sync_row_failure_aborts_witness :
    (1 < exRows.length ∧ (row1FailOracle.rowFail 1).isSome) ∧
    ((syncData row1FailOracle exDB ⟨some "1234567890", some "tok12345",
        some exRows⟩).2 = .err 500 "Server error" ∧
    (syncData row1FailOracle exDB ⟨some "1234567890", some "tok12345",
        some exRows⟩).2.recordCount = none ∧
    (syncData row1FailOracle exDB ⟨some "1234567890", some "tok12345",
        some exRows⟩).1.acc_master = exDB.acc_master ∧
    (syncData row1FailOracle exDB ⟨some "1234567890", some "tok12345",
        some exRows⟩).1.acc_users = exDB.acc_users) :=
  ⟨⟨by decide, rfl⟩, sync_row_failure_aborts row1FailOracle exDB
    "1234567890" "tok12345" exRows (by decide) (by decide) (by decide) 1
    (by decide) rfl
    (by
      intro i m hm
      by_cases hi : i = 1
      · rw [hi] at hm
        simp only [row1FailOracle, if_pos rfl] at hm
        cases hm
        decide
      · simp only [row1FailOracle, if_neg hi] at hm
        cases hm)⟩

/-- Witness for `sync_no_code_row_still_inserted` on a concrete code-less
row. -/
theorem sync_no_code_row_still_inserted_witness :
    ([("NAME", "OnlyName")] ∈ noCodeRows ∧
     userFieldsOf [("NAME", "OnlyName")] = none) ∧
    (masterRecOf "1234567890" [("NAME", "OnlyName")] ∈
      (syncData okOracle exDB ⟨some "1234567890", some "tok12345",
        some noCodeRows⟩).1.acc_master ∧
    (masterRecOf "1234567890" [("NAME", "OnlyName")]).code = none ∧
    (syncData okOracle exDB ⟨some "1234567890", some "tok12345",
        some noCodeRows⟩).2.recordCount = some noCodeRows.length) :=
  ⟨⟨by decide, rfl⟩, sync_no_code_row_still_inserted okOracle exDB
    "1234567890" "tok12345" noCodeRows (by decide) (by decide) (by decide)
    (fun _ _ => rfl) rfl [("NAME", "OnlyName")] (by decide) rfl rfl⟩

/-- Witness for `sync_success_log_inside_transaction` on concrete
successful and audit-failing runs. -/
theorem sync_success_log_inside_transaction_witness :
    ((okOracle.logFail = none →
      (syncData okOracle exDB ⟨some "1234567890", some "tok12345",
          some exRows⟩).1.sync_logs =
        exDB.sync_logs ++ [⟨"1234567890", exRows.length, "SUCCESS",
          "Sync completed successfully"⟩] ∧
      ((syncData okOracle exDB ⟨some "1234567890", some "tok12345",
          some exRows⟩).2).success = true) ∧
    (∀ m, okOracle.logFail = some m → m ≠ "UNAUTHORIZED" →
      (syncData okOracle exDB ⟨some "1234567890", some "tok12345",
          some exRows⟩).2 = .err 500 "Server error" ∧
      (syncData okOracle exDB ⟨some "1234567890", some "tok12345",
          some exRows⟩).1.acc_users = exDB.acc_users ∧
      (syncData okOracle exDB ⟨some "1234567890", some "tok12345",
          some exRows⟩).1.acc_master = exDB.acc_master)) ∧
    ((logFailOracle.logFail = none →
      (syncData logFailOracle exDB ⟨some "1234567890", some "tok12345",
          some exRows⟩).1.sync_logs =
        exDB.sync_logs ++ [⟨"1234567890", exRows.length, "SUCCESS",
          "Sync completed successfully"⟩] ∧
      ((syncData logFailOracle exDB ⟨some "1234567890", some "tok12345",
          some exRows⟩).2).success = true) ∧
    (∀ m, logFailOracle.logFail = some m → m ≠ "UNAUTHORIZED" →
      (syncData logFailOracle exDB ⟨some "1234567890", some "tok12345",
          some exRows⟩).2 = .err 500 "Server error" ∧
      (syncData logFailOracle exDB ⟨some "1234567890", some "tok12345",
          some exRows⟩).1.acc_users = exDB.acc_users ∧
      (syncData logFailOracle exDB ⟨some "1234567890", some "tok12345",
          some exRows⟩).1.acc_master = exDB.acc_master)) :=
  ⟨sync_success_log_inside_transaction okOracle exDB "1234567890"
      "tok12345" exRows (by decide) (by decide) (by decide)
      (fun _ _ => rfl),
   sync_success_log_inside_transaction logFailOracle exDB "1234567890"
      "tok12345" exRows (by decide) (by decide) (by decide)
      (fun _ _ => rfl)⟩

/-- `decimalDigits 0` is empty. -/
theorem decimalDigits_zero : decimalDigits 0 = [] := by
  rw [decimalDigits]
  simp

/-- Unfolding `decimalDigits` on a positive number. -/
theorem decimalDigits_pos (n : Nat) (h : n ≠ 0) :
    decimalDigits n = decimalDigits (n / 10) ++ [n % 10] := by
  rw [decimalDigits]
  simp [h]

/-- A number in `[10^d, 10^(d+1))` renders with exactly `d + 1` decimal
digits. -/
theorem decimalDigits_length_of_bounds (d : Nat) :
    ∀ n, 10 ^ d ≤ n → n < 10 ^ (d + 1) → (decimalDigits n).length = d + 1 := by
  induction d with
  | zero =>
    intro n h1 h2
    have hn : n ≠ 0 := by simp at h1; omega
    rw [decimalDigits_pos n hn]
    have hdiv : n / 10 = 0 := Nat.div_eq_of_lt (by simpa using h2)
    rw [hdiv, decimalDigits_zero]
    rfl
  | succ d ih =>
    intro n h1 h2
    have hpow : (0 : Nat) < 10 ^ (d + 1) := Nat.pos_pow_of_pos _ (by omega)
    have hn : n ≠ 0 := by omega
    rw [decimalDigits_pos n hn]
    have hle : 10 ^ d ≤ n / 10 := by
      rw [Nat.le_div_iff_mul_le (by omega)]
      calc 10 ^ d * 10 = 10 ^ (d + 1) := (Nat.pow_succ 10 d).symm
        _ ≤ n := h1
    have hlt : n / 10 < 10 ^ (d + 1) := by
      rw [Nat.div_lt_iff_lt_mul (by omega)]
      calc n < 10 ^ (d + 2) := h2
        _ = 10 ^ (d + 1) * 10 := Nat.pow_succ 10 (d + 1)
    rw [List.length_append, ih (n / 10) hle hlt]
    rfl

/-- Every entry of `decimalDigits` is a digit. -/
theorem decimalDigits_mem_lt (n : Nat) : ∀ x ∈ decimalDigits n, x < 10 := by
  induction n using Nat.strong_induction_on with
  | _ n ih =>
    by_cases hn : n = 0
    · rw [hn, decimalDigits_zero]
      simp
    · rw [decimalDigits_pos n hn]
      intro x hx
      rcases List.mem_append.1 hx with h | h
      · exact ih (n / 10)
          (Nat.div_lt_self (Nat.pos_of_ne_zero hn) (by omega)) x h
      · have : x = n % 10 := by simpa using h
        omega

/-- The generated client id of a draw below 9000000000 is a 10-digit
numeric string. -/
theorem generateClientId_ten_digits (k : Nat) (hk : k < 9000000000) :
    isTenDigitNumeric (generateClientId k) = true := by
  unfold generateClientId numToString
  rw [if_neg (by omega : ¬(1000000000 + k = 0))]
  have hlen : (decimalDigits (1000000000 + k)).length = 10 := by
    have := decimalDigits_length_of_bounds 9 (1000000000 + k)
      (by norm_num) (by norm_num; omega)
    simpa using this
  have hdigits : ∀ m, m < 10 → (Nat.digitChar m).isDigit = true := by decide
  unfold isTenDigitNumeric
  rw [Bool.and_eq_true]
  constructor
  · show decide (((decimalDigits (1000000000 + k)).map Nat.digitChar).length = 10) = true
    rw [List.length_map, hlen]
    rfl
  · rw [List.all_eq_true]
    intro c hc
    rcases List.mem_map.1 hc with ⟨x, hxmem, hxeq⟩
    rw [← hxeq]
    exact hdigits x (decimalDigits_mem_lt (1000000000 + k) x hxmem)

/-- Hex rendering yields two characters per byte. -/
theorem flatMap_byteToHexChars_length (bytes : List Nat) :
    (bytes.flatMap byteToHexChars).length = 2 * bytes.length := by
  induction bytes with
  | nil => rfl
  | cons b bs ih =>
    rw [List.flatMap_cons, List.length_append, ih]
    simp [byteToHexChars]
    omega

/-- The generated token of a 32-byte draw is 64 lowercase hex characters. -/
theorem generateSecureToken_spec (bytes : List Nat) (hlen : bytes.length = 32)
    (hb : ∀ b ∈ bytes, b < 256) :
    (generateSecureToken bytes).length = 64 ∧
    (generateSecureToken bytes).data.all isHexChar = true := by
  constructor
  · show (bytes.flatMap byteToHexChars).length = 64
    rw [flatMap_byteToHexChars_length, hlen]
  · rw [List.all_eq_true]
    intro c hc
    rcases List.mem_flatMap.1 hc with ⟨b, hbmem, hcmem⟩
    have hblt := hb b hbmem
    have hhex : ∀ m, m < 16 → isHexChar (Nat.digitChar m) = true := by decide
    rcases (by simpa [byteToHexChars] using hcmem :
        c = Nat.digitChar (b / 16) ∨ c = Nat.digitChar (b % 16)) with h | h <;>
      rw [h]
    · exact hhex _ (by omega)
    · exact hhex _ (by omega)

/-- C8: `POST /add-users` with all required fields present issues a 10-digit
numeric `clientId` and a 64-hexadecimal-character `accessToken`; if the
freshly generated client id already exists among stored records the call
answers HTTP 409 with the collision error and inserts nothing, otherwise it
responds with the issued credentials. -/
theorem addUsers_spec (db : DB) (f : AddUserFields) (k : Nat)
    (bytes : List Nat) (hk : k < 9000000000) (hlen : bytes.length = 32)
    (hb : ∀ b ∈ bytes, b < 256)
    (hf : ¬(f.dbName = "" ∨ f.dbUser = "" ∨ f.dbPassword = "" ∨
       f.password = "" ∨ f.address = "" ∨ f.clientName = "" ∨
       f.phoneNumber = "" ∨ f.username = "")) :
    isTenDigitNumeric (generateClientId k) = true ∧
    (generateSecureToken bytes).length = 64 ∧
    (generateSecureToken bytes).data.all isHexChar = true ∧
    ((db.sync_users.filter
        (fun u => u.client_id == generateClientId k)).length > 0 →
      addUsers db f k bytes =
        (db, .err 409 "Client ID collision - please try again")) ∧
    ((db.sync_users.filter
        (fun u => u.client_id == generateClientId k)).length = 0 →
      (addUsers db f k bytes).2 =
        .ok (generateClientId k) (generateSecureToken bytes)) := by
  obtain ⟨h64, hhex⟩ := generateSecureToken_spec bytes hlen hb
  refine ⟨generateClientId_ten_digits k hk, h64, hhex, ?_, ?_⟩
  · intro hcol
    unfold addUsers
    rw [if_neg hf, if_pos hcol]
  · intro hnocol
    unfold addUsers
    rw [if_neg hf, if_neg (by omega)]

/-- Witness for `addUsers_spec`: a fresh-id creation against `exDB` and a
forced collision with the stored id 1234567890 (`generateClientId
234567890`). -/
theorem addUsers_spec_witness :
    (isTenDigitNumeric (generateClientId 0) = true ∧
     (generateSecureToken (List.replicate 32 0)).length = 64 ∧
     (generateSecureToken (List.replicate 32 0)).data.all isHexChar = true ∧
     ((exDB.sync_users.filter
         (fun u => u.client_id == generateClientId 0)).length > 0 →
       addUsers exDB exFields 0 (List.replicate 32 0) =
         (exDB, .err 409 "Client ID collision - please try again")) ∧
     ((exDB.sync_users.filter
         (fun u => u.client_id == generateClientId 0)).length = 0 →
       (addUsers exDB exFields 0 (List.replicate 32 0)).2 =
         .ok (generateClientId 0) (generateSecureToken (List.replicate 32 0)))) ∧
    (isTenDigitNumeric (generateClientId 234567890) = true ∧
     (generateSecureToken (List.replicate 32 0)).length = 64 ∧
     (generateSecureToken (List.replicate 32 0)).data.all isHexChar = true ∧
     ((exDB.sync_users.filter
         (fun u => u.client_id == generateClientId 234567890)).length > 0 →
       addUsers exDB exFields 234567890 (List.replicate 32 0) =
         (exDB, .err 409 "Client ID collision - please try again")) ∧
     ((exDB.sync_users.filter
         (fun u => u.client_id == generateClientId 234567890)).length = 0 →
       (addUsers exDB exFields 234567890 (List.replicate 32 0)).2 =
         .ok (generateClientId 234567890)
           (generateSecureToken (List.replicate 32 0)))) :=
  ⟨addUsers_spec exDB exFields 0 (List.replicate 32 0) (by decide)
      (by decide) (by decide) (by decide),
   addUsers_spec exDB exFields 234567890 (List.replicate 32 0) (by decide)
      (by decide) (by decide) (by decide)⟩
